import Mathlib

/-!
# Shallow embedding of the instagrapi authenticated-session core

This file embeds the session lifecycle engine of `instagrapi/mixins/auth.py`
together with `generate_jazoest` from `instagrapi/utils.py`, and proves or
refutes the specification claims about it.

Modelling conventions:
* Python object state (`self`) is an explicit `ClientState` record; methods are
  functions from state to state (plus results).
* Python exceptions are `Except PyErr`; mutations performed before a raise are
  kept in the returned state, as in Python.
* The HTTP transport (`private_request`), the password-encryption collaborator,
  `uuid4`, `time.time()` and the system timezone are external to the analysed
  sources; they are injected through a `Transport` record and through explicit
  streams of fresh values (`uuidSupply`, `deviceIdSupply`, `randSupply`) held
  in the state.  Every request handed to the transport is logged.
* Dictionary payloads are association lists over `PVal` (Python's str/int/bool
  and `None` values as they occur in these payloads).
-/

namespace Instagrapi

/-- A value occurring in a request payload mapping. -/
inductive PVal where
  | str : String → PVal
  | intv : Int → PVal
  | boolv : Bool → PVal
  | null : PVal
deriving DecidableEq, Repr

/-- `None`-or-string turned into the payload value Python would store. -/
def PVal.ofOpt : Option String → PVal
  | Option.none => PVal.null
  | Option.some s => PVal.str s

/-- Python's `str()` rendering of an optional string (`None` renders as "None"). -/
def pyStr : Option String → String
  | Option.none => "None"
  | Option.some s => s

/-- Python's `str()` rendering of an optional int. -/
def pyStrOfOptInt : Option Int → String
  | Option.none => "None"
  | Option.some n => toString n

/-- The value of a nonempty run of decimal digits; `Option.none` when the run
is empty or contains a non-digit. -/
def digitsVal (l : List Char) : Option Nat :=
  match l with
  | [] => Option.none
  | _ =>
    l.foldl
      (fun acc c =>
        acc.bind (fun a => if c.isDigit then Option.some (10 * a + (c.toNat - 48)) else Option.none))
      (Option.some 0)

/-- Python's `int(s)`: strip surrounding whitespace, then parse an optionally
signed decimal numeral; `Option.none` models a raised `ValueError`. -/
def pyInt? (s : String) : Option Int :=
  let t := ((s.data.dropWhile Char.isWhitespace).reverse.dropWhile Char.isWhitespace).reverse
  match t with
  | '-' :: ds => (digitsVal ds).map (fun n => -(n : Int))
  | '+' :: ds => (digitsVal ds).map (fun n => (n : Int))
  | ds => (digitsVal ds).map (fun n => (n : Int))

/-- Truthiness of `s.strip()` being empty: every character is whitespace. -/
def pyStrBlank (s : String) : Bool :=
  s.data.all Char.isWhitespace

instance {ε α : Type} [DecidableEq ε] [DecidableEq α] : DecidableEq (Except ε α) :=
  fun a b =>
    match a, b with
    | Except.ok x, Except.ok y =>
      if h : x = y then isTrue (by rw [h]) else isFalse (by intro hc; cases hc; exact h rfl)
    | Except.ok _, Except.error _ => isFalse (by intro hc; cases hc)
    | Except.error _, Except.ok _ => isFalse (by intro hc; cases hc)
    | Except.error e, Except.error f =>
      if h : e = f then isTrue (by rw [h]) else isFalse (by intro hc; cases hc; exact h rfl)

/-- The cookie jar, as the flat name-to-value mapping `get_dict()` exposes. -/
abbrev Jar := List (String × String)

/-- Lookup in the cookie mapping (`dict.get`). -/
def cookieGet (j : Jar) (k : String) : Option String :=
  (j.find? (fun p => p.1 = k)).map (fun p => p.2)

/-- Exceptions raised or caught by the session core. -/
inductive PyErr where
  | pleaseWaitFewMinutes
  | twoFactorRequired (msg : String)
  | reloginAttemptExceeded
  | valueError (msg : String)
  | typeError
  | keyError
deriving DecidableEq, Repr

/-- The device descriptor (`device_settings`); field set and default values as
in `set_device`. -/
structure Device where
  app_version : String
  android_version : Nat
  android_release : String
  dpi : String
  resolution : String
  manufacturer : String
  device : String
  model : String
  cpu : String
  version_code : String
deriving DecidableEq, Repr

/-- The hard-coded reference device profile from `set_device`. -/
def defaultDevice : Device :=
  { app_version := "169.3.0.30.135"
    android_version := 26
    android_release := "8.0.0"
    dpi := "640dpi"
    resolution := "1440x2560"
    manufacturer := "Xiaomi"
    device := "MI 5s"
    model := "capricorn"
    cpu := "qcom"
    version_code := "264009049" }

/-- The `uuids` sub-mapping of a settings document; each field is `some` iff
the key is present. -/
structure UuidsDict where
  phone_id : Option String
  uuid : Option String
  client_session_id : Option String
  advertising_id : Option String
  device_id : Option String
deriving DecidableEq, Repr

/-- The empty `uuids` mapping (`{}`). -/
def emptyUuids : UuidsDict :=
  { phone_id := Option.none, uuid := Option.none, client_session_id := Option.none
    advertising_id := Option.none, device_id := Option.none }

/-- A parsed settings document (the dict held in `self.settings` and stored as
JSON by `dump_settings`).  An `Option` field is `some` iff the top-level key is
present; `last_login` conflates an absent key with a null value, which is how
`settings.get("last_login")` reads it. -/
structure Settings where
  cookies : Option Jar
  last_login : Option Nat
  device_settings : Option Device
  user_agent : Option String
  uuids : Option UuidsDict
deriving DecidableEq, Repr

/-- The mutable state of a `LoginMixin` client.  The three `Supply` fields
inject the ambient randomness (`uuid4`, the time-seeded device-id hash, and
`random.randint`) as explicit streams of pre-drawn values. -/
structure ClientState where
  username : Option String
  password : Option String
  last_login : Option Nat
  relogin_attempt : Nat
  device_settings : Option Device
  client_session_id : String
  advertising_id : String
  device_id : String
  phone_id : String
  uuid : String
  user_agent : Option String
  headers_user_agent : Option String
  settings : Option Settings
  cookies : Jar
  uuidSupply : List String
  deviceIdSupply : List String
  randSupply : List Int
deriving DecidableEq, Repr

/-- `generate_jazoest` from `instagrapi/utils.py`: the decimal sum of the
character code points, with the digit 2 in front. -/
def generate_jazoest (symbols : String) : String :=
  "2" ++ toString (symbols.data.foldl (fun acc c => acc + c.toNat) 0)

/-- `self.token`: the `csrftoken` cookie. -/
def ClientState.token (st : ClientState) : Option String :=
  cookieGet st.cookies "csrftoken"

/-- `self.sessionid`: the `sessionid` cookie. -/
def ClientState.sessionid (st : ClientState) : Option String :=
  cookieGet st.cookies "sessionid"

/-- The body of the `user_id` accessor at the cookie-jar level: a missing or
empty (falsy) `ds_user_id` yields `None`, otherwise the value goes through
`int(...)`, which raises `ValueError` on a non-numeric string. -/
def jarUserId (j : Jar) : Except PyErr (Option Int) :=
  match cookieGet j "ds_user_id" with
  | Option.none => Except.ok Option.none
  | Option.some v =>
    if v = "" then Except.ok Option.none
    else
      match pyInt? v with
      | Option.some n => Except.ok (Option.some n)
      | Option.none => Except.error (PyErr.valueError v)

/-- `self.user_id`: `jarUserId` read from the live cookie jar. -/
def ClientState.user_id (st : ClientState) : Except PyErr (Option Int) :=
  jarUserId st.cookies

/-- `self.rank_token`: the f-string rendering of `user_id` and `uuid`; raises
whatever `user_id` raises. -/
def ClientState.rank_token (st : ClientState) : Except PyErr String :=
  match st.user_id with
  | Except.error e => Except.error e
  | Except.ok u => Except.ok (pyStrOfOptInt u ++ "_" ++ st.uuid)

/-- Python truthiness of the value `user_id` returns. -/
def pyTruthyInt? : Option Int → Bool
  | Option.some n => n != 0
  | Option.none => false

/-- `generate_uuid`: draw the next pre-drawn `uuid4` value from the injected
stream (an exhausted stream yields ""). -/
def generate_uuid (st : ClientState) : String × ClientState :=
  (st.uuidSupply.headD "", { st with uuidSupply := st.uuidSupply.tail })

/-- `generate_device_id`: draw the next pre-drawn time-seeded
`android-<16 hex>` value from the injected stream. -/
def generate_device_id (st : ClientState) : String × ClientState :=
  (st.deviceIdSupply.headD "", { st with deviceIdSupply := st.deviceIdSupply.tail })

/-- `set_uuids`: five lines of `uuids.get(key, self.generate_...())`.  As in
Python, the generator in the default argument runs (and consumes randomness)
even when the key is present and its fresh value is discarded. -/
def set_uuids (uuids : UuidsDict) (st : ClientState) : ClientState :=
  let g1 := generate_uuid st
  let st := { g1.2 with phone_id := uuids.phone_id.getD g1.1 }
  let g2 := generate_uuid st
  let st := { g2.2 with uuid := uuids.uuid.getD g2.1 }
  let g3 := generate_uuid st
  let st := { g3.2 with client_session_id := uuids.client_session_id.getD g3.1 }
  let g4 := generate_uuid st
  let st := { g4.2 with advertising_id := uuids.advertising_id.getD g4.1 }
  let g5 := generate_device_id st
  { g5.2 with device_id := uuids.device_id.getD g5.1 }

/-- `set_device`: install the descriptor (default profile when the argument is
falsy), mirror it into the settings dict (`self.settings["device_settings"] =`,
a `TypeError` when `settings` is still `None`), and regenerate every
identifier via `set_uuids({})`. -/
def set_device (device : Option Device) (st : ClientState) :
    ClientState × Except PyErr Unit :=
  let dev := device.getD defaultDevice
  let st := { st with device_settings := Option.some dev }
  match st.settings with
  | Option.none => (st, Except.error PyErr.typeError)
  | Option.some s =>
    (set_uuids emptyUuids
      { st with settings := Option.some { s with device_settings := Option.some dev } },
     Except.ok ())

/-- Modelled from the spec: `config.USER_AGENT_BASE` lives in the `config`
module, which is not among the analysed sources; the spec only says the user
agent is formatted from the device descriptor fields.  We model the format
call as a fixed injective rendering of the descriptor. -/
def formatUserAgent (d : Device) : String :=
  "Instagram " ++ d.app_version ++ " Android (" ++ toString d.android_version ++
    "/" ++ d.android_release ++ "; " ++ d.dpi ++ "; " ++ d.resolution ++ "; " ++
    d.manufacturer ++ "; " ++ d.device ++ "; " ++ d.model ++ "; " ++ d.cpu ++
    "; " ++ d.version_code ++ ")"

/-- The tail of `set_user_agent` once the effective user agent string is
known: store it, propagate it to the transport headers and the settings dict,
then regenerate every identifier via `set_uuids({})`. -/
def set_user_agent_with (ua : String) (st : ClientState) :
    ClientState × Except PyErr Unit :=
  let st := { st with user_agent := Option.some ua
                      headers_user_agent := Option.some ua }
  match st.settings with
  | Option.none => (st, Except.error PyErr.typeError)
  | Option.some s =>
    (set_uuids emptyUuids
      { st with settings := Option.some { s with user_agent := Option.some ua } },
     Except.ok ())

/-- `set_user_agent`: `user_agent or USER_AGENT_BASE.format(**device_settings)`
(`or` treats `None` and "" as falsy; formatting an empty descriptor raises
`KeyError` before any mutation). -/
def set_user_agent (user_agent : Option String) (st : ClientState) :
    ClientState × Except PyErr Unit :=
  match user_agent with
  | Option.some x =>
    if x = "" then
      match st.device_settings with
      | Option.some dev => set_user_agent_with (formatUserAgent dev) st
      | Option.none => (st, Except.error PyErr.keyError)
    else set_user_agent_with x st
  | Option.none =>
    match st.device_settings with
    | Option.some dev => set_user_agent_with (formatUserAgent dev) st
    | Option.none => (st, Except.error PyErr.keyError)

/-- `init`: activate `self.settings` — install its cookies into the jar when
the key is present, restore `last_login`, then run `set_device`,
`set_user_agent` and `set_uuids` from the stored values.  `"cookies" in None`
raises `TypeError` when no settings object was ever stored. -/
def init (st : ClientState) : ClientState × Except PyErr Unit :=
  match st.settings with
  | Option.none => (st, Except.error PyErr.typeError)
  | Option.some s =>
    let st := match s.cookies with
      | Option.some c => { st with cookies := c }
      | Option.none => st
    let st := { st with last_login := s.last_login }
    let p1 := set_device s.device_settings st
    match p1.2 with
    | Except.error e => (p1.1, Except.error e)
    | Except.ok _ =>
      let p2 := set_user_agent s.user_agent p1.1
      match p2.2 with
      | Except.error e => (p2.1, Except.error e)
      | Except.ok _ =>
        (set_uuids (s.uuids.getD emptyUuids) p2.1, Except.ok ())

/-- `set_settings`: replace the stored settings object wholesale; nothing else
is touched. -/
def set_settings (settings : Settings) (st : ClientState) : ClientState × Bool :=
  ({ st with settings := Option.some settings }, true)

/-- `load_settings`: the file is opened and parsed by `json.load`; the parsed
document (passed here as `parsed`, the filesystem being outside the embedding)
goes through `set_settings`, and the stored settings are returned. -/
def load_settings (parsed : Settings) (st : ClientState) : ClientState × Settings :=
  let p := set_settings parsed st
  (p.1, parsed)

/-- A request handed to `private_request`: endpoint path, payload mapping (the
timeline call serializes its mapping with `json.dumps` before sending; we log
the mapping itself), the `login` keyword and the `with_signature` keyword. -/
structure Request where
  endpoint : String
  data : List (String × PVal)
  login : Bool
  with_signature : Bool
deriving DecidableEq, Repr

/-- The injected external collaborators: the transport's response behaviour
(`Except.ok b` is the truthiness of the returned mapping, `Except.error` a
raised domain error), the `two_factor_identifier` the transport stored in
`last_json` for a failed login, the password-encryption capability, the
`uuid4()` drawn for `waterfall_id`, `time.time()` and the formatted CET
offset. -/
structure Transport where
  respond : Request → Except PyErr Bool
  lastJsonTwoFactorIdentifier : Option String
  encrypt : Option String → String
  waterfall : String
  now : Nat
  tz : String

/-- Modelled from the spec: `config.LOGIN_EXPERIMENTS` is a constant of the
`config` module, which is not among the analysed sources. -/
def LOGIN_EXPERIMENTS : String := "ig_android_login_experiments"

/-- Modelled from the spec: `config.SUPPORTED_CAPABILITIES` is a constant of
the `config` module, which is not among the analysed sources. -/
def SUPPORTED_CAPABILITIES : String := "supported_capabilities"

/-- The request issued by `set_contact_point_prefill("prefill")`. -/
def reqContactPointPrefill (st : ClientState) : Request :=
  { endpoint := "accounts/contact_point_prefill/"
    data := [("phone_id", PVal.str st.phone_id),
             ("usage", PVal.str "prefill"),
             ("_csrftoken", PVal.ofOpt st.token)]
    login := true
    with_signature := true }

/-- The request issued by `get_prefill_candidates(True)`. -/
def reqPrefillCandidates (st : ClientState) : Request :=
  { endpoint := "accounts/get_prefill_candidates/"
    data := [("android_device_id", PVal.str st.device_id),
             ("client_contact_points",
              PVal.str ("[\x7b\"type\":\"omnistring\",\"value\":\"" ++
                pyStr st.username ++ "\",\"source\":\"last_login_attempt\"\x7d]")),
             ("phone_id", PVal.str st.phone_id),
             ("usages", PVal.str "[\"account_recovery_omnibox\"]"),
             ("device_id", PVal.str st.device_id),
             ("_csrftoken", PVal.ofOpt st.token)]
    login := true
    with_signature := true }

/-- The request issued by `sync_launcher(True)` (with `login=True` no extra
keys are added). -/
def reqSyncLauncher (st : ClientState) : Request :=
  { endpoint := "launcher/sync/"
    data := [("id", PVal.str st.uuid),
             ("server_config_retrieval", PVal.str "1")]
    login := true
    with_signature := true }

/-- The request issued by `sync_device_features(True)`. -/
def reqSyncDeviceFeatures (st : ClientState) : Request :=
  { endpoint := "qe/sync/"
    data := [("id", PVal.str st.uuid),
             ("server_config_retrieval", PVal.str "1"),
             ("experiments", PVal.str LOGIN_EXPERIMENTS)]
    login := true
    with_signature := true }

/-- `pre_login_flow`: the five emulation calls in order; the first raised
error aborts the remaining calls and propagates.  The client state is only
read, never written, so only the issued requests and the outcome are
returned. -/
def pre_login_flow (tr : Transport) (st : ClientState) :
    List Request × Except PyErr Unit :=
  let r1 := reqContactPointPrefill st
  match tr.respond r1 with
  | Except.error e => ([r1], Except.error e)
  | Except.ok _ =>
    let r2 := reqPrefillCandidates st
    match tr.respond r2 with
    | Except.error e => ([r1, r2], Except.error e)
    | Except.ok _ =>
      let r3 := reqContactPointPrefill st
      match tr.respond r3 with
      | Except.error e => ([r1, r2, r3], Except.error e)
      | Except.ok _ =>
        let r4 := reqSyncLauncher st
        match tr.respond r4 with
        | Except.error e => ([r1, r2, r3, r4], Except.error e)
        | Except.ok _ =>
          let r5 := reqSyncDeviceFeatures st
          match tr.respond r5 with
          | Except.error e => ([r1, r2, r3, r4, r5], Except.error e)
          | Except.ok _ => ([r1, r2, r3, r4, r5], Except.ok ())

/-- Draw the next pre-drawn `random.randint` value from the injected stream. -/
def takeRand (st : ClientState) : Int × ClientState :=
  (st.randSupply.headD 0, { st with randSupply := st.randSupply.tail })

/-- `get_timeline_feed(options)`: draws the header latency and the three
payload randoms, builds the payload in source order (the source then passes it
through `json.dumps`; we log the mapping), and issues the request with
`with_signature=False`. -/
def get_timeline_feed (options : List PVal) (tr : Transport) (st : ClientState) :
    ClientState × Request × Except PyErr Bool :=
  let pLat := takeRand st
  let st := pLat.2
  let pBat := takeRand st
  let st := pBat.2
  let pChg := takeRand st
  let st := pChg.2
  let pSnd := takeRand st
  let st := pSnd.2
  let base : List (String × PVal) :=
    [("feed_view_info", PVal.str ""),
     ("phone_id", PVal.str st.phone_id),
     ("battery_level", PVal.intv pBat.1),
     ("timezone_offset", PVal.str tr.tz),
     ("_csrftoken", PVal.ofOpt st.token),
     ("device_id", PVal.str st.uuid),
     ("request_id", PVal.str st.device_id),
     ("_uuid", PVal.str st.uuid),
     ("is_charging", PVal.intv pChg.1),
     ("will_sound_on", PVal.intv pSnd.1),
     ("session_id", PVal.str st.client_session_id),
     ("bloks_versioning_id",
      PVal.str "e538d4591f238824118bfcb9528c8d005f2ea3becd947a3973c030ac971bb88e")]
  let base :=
    if PVal.str "is_pull_to_refresh" ∈ options then
      base ++ [("reason", PVal.str "pull_to_refresh"), ("is_pull_to_refresh", PVal.str "1")]
    else
      base ++ [("reason", PVal.str "cold_start_fetch"), ("is_pull_to_refresh", PVal.str "0")]
  let base :=
    if PVal.str "push_disabled" ∈ options then
      base ++ [("push_disabled", PVal.str "true")]
    else base
  let base :=
    if PVal.str "recovered_from_crash" ∈ options then
      base ++ [("recovered_from_crash", PVal.str "1")]
    else base
  let req : Request :=
    { endpoint := "feed/timeline/", data := base, login := false, with_signature := false }
  (st, req, tr.respond req)

/-- `get_reels_tray_feed(reason)`. -/
def get_reels_tray_feed (reason : String) (tr : Transport) (st : ClientState) :
    Request × Except PyErr Bool :=
  let req : Request :=
    { endpoint := "feed/reels_tray/"
      data := [("supported_capabilities_new", PVal.str SUPPORTED_CAPABILITIES),
               ("reason", PVal.str reason),
               ("_csrftoken", PVal.ofOpt st.token),
               ("_uuid", PVal.str st.uuid)]
      login := false
      with_signature := true }
  (req, tr.respond req)

/-- `login_flow` (the post-login emulation): the coin flip
`random.randint(1, 100) % 2 == 0` chooses between pull-to-refresh and cold
start; both calls must return truthy mappings for the flow to report
success. -/
def login_flow (tr : Transport) (st : ClientState) :
    ClientState × List Request × Except PyErr Bool :=
  let pC := takeRand st
  let st := pC.2
  let chance := pC.1 % 2 == 0
  let opts : List PVal :=
    [if chance then PVal.str "is_pull_to_refresh" else PVal.boolv false]
  let t := get_timeline_feed opts tr st
  let st := t.1
  match t.2.2 with
  | Except.error e => (st, [t.2.1], Except.error e)
  | Except.ok b1 =>
    let r := get_reels_tray_feed (if chance then "pull_to_refresh" else "cold_start") tr st
    match r.2 with
    | Except.error e => (st, [t.2.1, r.1], Except.error e)
    | Except.ok b2 => (st, [t.2.1, r.1], Except.ok (b1 && b2))

/-- The credential-submission payload of `login`. -/
def loginPayload (st : ClientState) (un : Option String) (enc : String) :
    List (String × PVal) :=
  [("jazoest", PVal.str (generate_jazoest st.phone_id)),
   ("phone_id", PVal.str st.phone_id),
   ("enc_password", PVal.str enc),
   ("username", PVal.ofOpt un),
   ("adid", PVal.str st.advertising_id),
   ("guid", PVal.str st.uuid),
   ("device_id", PVal.str st.device_id),
   ("google_tokens", PVal.str "[]"),
   ("login_attempt_count", PVal.str "0")]

/-- The two-factor submission payload of `login`. -/
def twoFactorPayload (st : ClientState) (un : Option String) (vc : String)
    (tr : Transport) : List (String × PVal) :=
  [("verification_code", PVal.str vc),
   ("phone_id", PVal.str st.phone_id),
   ("_csrftoken", PVal.ofOpt st.token),
   ("two_factor_identifier", PVal.ofOpt tr.lastJsonTwoFactorIdentifier),
   ("username", PVal.ofOpt un),
   ("trust_this_device", PVal.str "0"),
   ("guid", PVal.str st.uuid),
   ("device_id", PVal.str st.device_id),
   ("waterfall_id", PVal.str tr.waterfall),
   ("verification_method", PVal.str "3")]

/-- The tail of `login`: `if logged: self.login_flow(); self.last_login =
time.time(); return True` — the flow's boolean result is discarded but its
exceptions propagate. -/
def loginFinish (logged : Bool) (tr : Transport) (st : ClientState)
    (log : List Request) : ClientState × List Request × Except PyErr Bool :=
  if logged then
    let f := login_flow tr st
    match f.2.2 with
    | Except.error e => (f.1, log ++ f.2.1, Except.error e)
    | Except.ok _ =>
      ({ f.1 with last_login := Option.some tr.now }, log ++ f.2.1, Except.ok true)
  else (st, log, Except.ok false)

/-- Credential submission and the two-factor branch of `login`: a
`TwoFactorRequired` from the login endpoint either becomes a fatal error with
the explanatory suffix (blank code) or is retried once against the two-factor
endpoint, whose result supersedes the original one. -/
def loginSubmit (un pw : Option String) (vc : String) (tr : Transport)
    (st : ClientState) (log0 : List Request) :
    ClientState × List Request × Except PyErr Bool :=
  let enc := tr.encrypt pw
  let req : Request :=
    { endpoint := "accounts/login/", data := loginPayload st un enc
      login := true, with_signature := true }
  match tr.respond req with
  | Except.ok logged => loginFinish logged tr st (log0 ++ [req])
  | Except.error (PyErr.twoFactorRequired m) =>
    if pyStrBlank vc then
      (st, log0 ++ [req],
       Except.error (PyErr.twoFactorRequired
         (m ++ " (you did not provide verification_code for login method)")))
    else
      let req2 : Request :=
        { endpoint := "accounts/two_factor_login/", data := twoFactorPayload st un vc tr
          login := true, with_signature := true }
      match tr.respond req2 with
      | Except.ok logged => loginFinish logged tr st (log0 ++ [req, req2])
      | Except.error e => (st, log0 ++ [req, req2], Except.error e)
  | Except.error e => (st, log0 ++ [req], Except.error e)

/-- The networked part of `login`: pre-login emulation with the
`PleaseWaitFewMinutes` swallow, then credential submission. -/
def loginNetwork (un pw : Option String) (vc : String) (tr : Transport)
    (st : ClientState) : ClientState × List Request × Except PyErr Bool :=
  let p := pre_login_flow tr st
  match p.2 with
  | Except.error PyErr.pleaseWaitFewMinutes => loginSubmit un pw vc tr st p.1
  | Except.error e => (st, p.1, Except.error e)
  | Except.ok _ => loginSubmit un pw vc tr st p.1

/-- The already-authenticated guard of `login` (`if self.user_id: return
True`), then the networked part. -/
def loginGate (un pw : Option String) (vc : String) (tr : Transport)
    (st : ClientState) : ClientState × List Request × Except PyErr Bool :=
  match st.user_id with
  | Except.error e => (st, [], Except.error e)
  | Except.ok uid =>
    if pyTruthyInt? uid then (st, [], Except.ok true)
    else loginNetwork un pw vc tr st

/-- `login(username, password, relogin, verification_code)`: store the
credentials, run `init`, and on a relogin clear the jar and enforce the
attempt cap before anything touches the network. -/
def login (un pw : Option String) (relogin : Bool) (vc : String)
    (tr : Transport) (st0 : ClientState) :
    ClientState × List Request × Except PyErr Bool :=
  let st := { st0 with username := un, password := pw }
  let p := init st
  match p.2 with
  | Except.error e => (p.1, [], Except.error e)
  | Except.ok _ =>
    if relogin then
      let st1 := { p.1 with cookies := [] }
      if st1.relogin_attempt > 1 then
        (st1, [], Except.error PyErr.reloginAttemptExceeded)
      else
        loginGate un pw vc tr { st1 with relogin_attempt := st1.relogin_attempt + 1 }
    else loginGate un pw vc tr p.1

/-- `relogin()`: re-enter `login` with the stored credentials and the relogin
flag set. -/
def relogin (tr : Transport) (st : ClientState) :
    ClientState × List Request × Except PyErr Bool :=
  login st.username st.password true "" tr st

/-! ## Characterization lemmas -/

@[simp] theorem set_uuids_username (u : UuidsDict) (st : ClientState) :
    (set_uuids u st).username = st.username := rfl

@[simp] theorem set_uuids_password (u : UuidsDict) (st : ClientState) :
    (set_uuids u st).password = st.password := rfl

@[simp] theorem set_uuids_last_login (u : UuidsDict) (st : ClientState) :
    (set_uuids u st).last_login = st.last_login := rfl

@[simp] theorem set_uuids_relogin_attempt (u : UuidsDict) (st : ClientState) :
    (set_uuids u st).relogin_attempt = st.relogin_attempt := rfl

@[simp] theorem set_uuids_device_settings (u : UuidsDict) (st : ClientState) :
    (set_uuids u st).device_settings = st.device_settings := rfl

@[simp] theorem set_uuids_user_agent (u : UuidsDict) (st : ClientState) :
    (set_uuids u st).user_agent = st.user_agent := rfl

@[simp] theorem set_uuids_headers_user_agent (u : UuidsDict) (st : ClientState) :
    (set_uuids u st).headers_user_agent = st.headers_user_agent := rfl

@[simp] theorem set_uuids_settings (u : UuidsDict) (st : ClientState) :
    (set_uuids u st).settings = st.settings := rfl

@[simp] theorem set_uuids_cookies (u : UuidsDict) (st : ClientState) :
    (set_uuids u st).cookies = st.cookies := rfl

@[simp] theorem set_uuids_phone_id (u : UuidsDict) (st : ClientState) :
    (set_uuids u st).phone_id = u.phone_id.getD (st.uuidSupply.headD "") := rfl

@[simp] theorem set_uuids_uuid (u : UuidsDict) (st : ClientState) :
    (set_uuids u st).uuid = u.uuid.getD (st.uuidSupply.tail.headD "") := rfl

@[simp] theorem set_uuids_client_session_id (u : UuidsDict) (st : ClientState) :
    (set_uuids u st).client_session_id
      = u.client_session_id.getD (st.uuidSupply.tail.tail.headD "") := rfl

@[simp] theorem set_uuids_advertising_id (u : UuidsDict) (st : ClientState) :
    (set_uuids u st).advertising_id
      = u.advertising_id.getD (st.uuidSupply.tail.tail.tail.headD "") := rfl

@[simp] theorem set_uuids_device_id (u : UuidsDict) (st : ClientState) :
    (set_uuids u st).device_id = u.device_id.getD (st.deviceIdSupply.headD "") := rfl

@[simp] theorem set_uuids_uuidSupply (u : UuidsDict) (st : ClientState) :
    (set_uuids u st).uuidSupply = st.uuidSupply.tail.tail.tail.tail := rfl

@[simp] theorem set_uuids_deviceIdSupply (u : UuidsDict) (st : ClientState) :
    (set_uuids u st).deviceIdSupply = st.deviceIdSupply.tail := rfl

@[simp] theorem set_uuids_randSupply (u : UuidsDict) (st : ClientState) :
    (set_uuids u st).randSupply = st.randSupply := rfl

/-- The value `user_agent or USER_AGENT_BASE.format(**device_settings)` takes
when the descriptor is installed. -/
def uaEffective (ua : Option String) (dev : Device) : String :=
  match ua with
  | Option.some x => if x = "" then formatUserAgent dev else x
  | Option.none => formatUserAgent dev

/-- The state `init` produces when a settings object is present. -/
def initModel (st : ClientState) (s : Settings) : ClientState :=
  let stA := { st with cookies := s.cookies.getD st.cookies, last_login := s.last_login }
  let dev := s.device_settings.getD defaultDevice
  let stB := set_uuids emptyUuids
    { stA with device_settings := Option.some dev
               settings := Option.some { s with device_settings := Option.some dev } }
  let ua := uaEffective s.user_agent dev
  let stC := set_uuids emptyUuids
    { stB with user_agent := Option.some ua
               headers_user_agent := Option.some ua
               settings := Option.some
                 { s with device_settings := Option.some dev, user_agent := Option.some ua } }
  set_uuids (s.uuids.getD emptyUuids) stC

theorem init_eq (st : ClientState) (s : Settings) (hs : st.settings = Option.some s) :
    init st = (initModel st s, Except.ok ()) := by
  unfold init initModel
  rw [hs]
  rcases hu : s.user_agent with _ | x
  · cases hc : s.cookies <;> cases hd : s.device_settings <;>
      simp [set_device, set_user_agent, set_user_agent_with, uaEffective, *]
  · rcases eq_or_ne x "" with hx | hx <;>
      cases hc : s.cookies <;> cases hd : s.device_settings <;>
        simp [set_device, set_user_agent, set_user_agent_with, uaEffective, *]

@[simp] theorem initModel_relogin_attempt (st : ClientState) (s : Settings) :
    (initModel st s).relogin_attempt = st.relogin_attempt := by
  unfold initModel
  simp

@[simp] theorem initModel_username (st : ClientState) (s : Settings) :
    (initModel st s).username = st.username := by
  unfold initModel
  simp

@[simp] theorem initModel_password (st : ClientState) (s : Settings) :
    (initModel st s).password = st.password := by
  unfold initModel
  simp

@[simp] theorem initModel_cookies (st : ClientState) (s : Settings) :
    (initModel st s).cookies = s.cookies.getD st.cookies := rfl

@[simp] theorem initModel_last_login (st : ClientState) (s : Settings) :
    (initModel st s).last_login = s.last_login := rfl

theorem initModel_settings (st : ClientState) (s : Settings) :
    (initModel st s).settings
      = Option.some
          { s with
            device_settings := Option.some (s.device_settings.getD defaultDevice)
            user_agent := Option.some
              (uaEffective s.user_agent (s.device_settings.getD defaultDevice)) } := by
  unfold initModel
  simp

@[simp] theorem initModel_settings_isSome (st : ClientState) (s : Settings) :
    (initModel st s).settings.isSome = true := by
  rw [initModel_settings]
  rfl

/-- After `init`, the five identifiers are the ones stored in the settings
`uuids` mapping whenever all of them are present. -/
theorem initModel_uuid_fields (st : ClientState) (s : Settings) (uu : UuidsDict)
    (p u ci ai di : String) (huu : s.uuids = Option.some uu)
    (h1 : uu.phone_id = Option.some p) (h2 : uu.uuid = Option.some u)
    (h3 : uu.client_session_id = Option.some ci)
    (h4 : uu.advertising_id = Option.some ai)
    (h5 : uu.device_id = Option.some di) :
    (initModel st s).phone_id = p ∧ (initModel st s).uuid = u ∧
    (initModel st s).client_session_id = ci ∧
    (initModel st s).advertising_id = ai ∧ (initModel st s).device_id = di := by
  unfold initModel
  simp [huu, h1, h2, h3, h4, h5]

@[simp] theorem jarUserId_nil : jarUserId [] = Except.ok Option.none := rfl

theorem login_no_relogin (un pw : Option String) (vc : String) (tr : Transport)
    (st : ClientState) (s : Settings) (hs : st.settings = Option.some s) :
    login un pw false vc tr st
      = loginGate un pw vc tr (initModel { st with username := un, password := pw } s) := by
  have hs' : ({ st with username := un, password := pw } : ClientState).settings
      = Option.some s := hs
  unfold login
  simp only [init_eq _ s hs']
  rfl

theorem login_relogin_proceed (un pw : Option String) (vc : String) (tr : Transport)
    (st : ClientState) (s : Settings) (hs : st.settings = Option.some s)
    (hra : st.relogin_attempt ≤ 1) :
    login un pw true vc tr st
      = loginGate un pw vc tr
          { initModel { st with username := un, password := pw } s with
            cookies := [], relogin_attempt := st.relogin_attempt + 1 } := by
  have hs' : ({ st with username := un, password := pw } : ClientState).settings
      = Option.some s := hs
  unfold login
  simp only [init_eq _ s hs']
  rw [if_pos trivial]
  split
  next h =>
    exfalso
    simp at h
    omega
  next h => rfl

theorem login_relogin_exceeded (un pw : Option String) (vc : String) (tr : Transport)
    (st : ClientState) (s : Settings) (hs : st.settings = Option.some s)
    (hra : st.relogin_attempt > 1) :
    login un pw true vc tr st
      = ({ initModel { st with username := un, password := pw } s with cookies := [] },
         [], Except.error PyErr.reloginAttemptExceeded) := by
  have hs' : ({ st with username := un, password := pw } : ClientState).settings
      = Option.some s := hs
  unfold login
  simp only [init_eq _ s hs']
  rw [if_pos trivial]
  split
  next h => rfl
  next h =>
    exfalso
    simp at h
    omega

theorem loginGate_not_authed (un pw : Option String) (vc : String) (tr : Transport)
    (st : ClientState) (uid : Option Int) (h : st.user_id = Except.ok uid)
    (ht : pyTruthyInt? uid = false) :
    loginGate un pw vc tr st = loginNetwork un pw vc tr st := by
  unfold loginGate
  rw [h]
  simp [ht]

theorem loginGate_authed (un pw : Option String) (vc : String) (tr : Transport)
    (st : ClientState) (uid : Option Int) (h : st.user_id = Except.ok uid)
    (ht : pyTruthyInt? uid = true) :
    loginGate un pw vc tr st = (st, [], Except.ok true) := by
  unfold loginGate
  rw [h]
  simp [ht]

theorem pre_login_flow_ok (tr : Transport) (st : ClientState)
    (hok : ∀ r, tr.respond r = Except.ok true) :
    pre_login_flow tr st
      = ([reqContactPointPrefill st, reqPrefillCandidates st, reqContactPointPrefill st,
          reqSyncLauncher st, reqSyncDeviceFeatures st], Except.ok ()) := by
  simp [pre_login_flow, hok]

/-- Under a transport that answers every request with a truthy mapping, the
whole networked phase of `login` succeeds, issues exactly the eight requests
of the emulation in order, and leaves the relogin counter and the settings
object untouched. -/
theorem loginNetwork_ok (un pw : Option String) (vc : String) (tr : Transport)
    (st : ClientState) (hok : ∀ r, tr.respond r = Except.ok true) :
    (loginNetwork un pw vc tr st).2.2 = Except.ok true ∧
    (loginNetwork un pw vc tr st).2.1.map Request.endpoint =
      ["accounts/contact_point_prefill/", "accounts/get_prefill_candidates/",
       "accounts/contact_point_prefill/", "launcher/sync/", "qe/sync/",
       "accounts/login/", "feed/timeline/", "feed/reels_tray/"] ∧
    (loginNetwork un pw vc tr st).1.relogin_attempt = st.relogin_attempt ∧
    (loginNetwork un pw vc tr st).1.settings = st.settings := by
  simp [loginNetwork, loginSubmit, loginFinish, login_flow, get_timeline_feed,
    get_reels_tray_feed, takeRand, pre_login_flow, reqContactPointPrefill,
    reqPrefillCandidates, reqSyncLauncher, reqSyncDeviceFeatures, hok]

/-- One `relogin()` call while the counter is still within the cap, against an
all-truthy transport: it reaches credential submission, succeeds, and bumps
the counter by one. -/
theorem relogin_ok_step (tr : Transport) (st : ClientState) (s : Settings)
    (hs : st.settings = Option.some s) (hra : st.relogin_attempt ≤ 1)
    (hok : ∀ r, tr.respond r = Except.ok true) :
    (relogin tr st).2.2 = Except.ok true ∧
    "accounts/login/" ∈ (relogin tr st).2.1.map Request.endpoint ∧
    (relogin tr st).1.relogin_attempt = st.relogin_attempt + 1 ∧
    (relogin tr st).1.settings.isSome = true := by
  unfold relogin
  rw [login_relogin_proceed st.username st.password "" tr st s hs hra]
  rw [loginGate_not_authed st.username st.password "" tr _ Option.none (by rfl) (by rfl)]
  obtain ⟨h1, h2, h3, h4⟩ := loginNetwork_ok st.username st.password "" tr _ hok
  refine ⟨h1, ?_, ?_, ?_⟩
  · rw [h2]
    simp
  · rw [h3]
  · rw [h4]
    simp

/-- One `relogin()` call once the counter exceeds the cap: the jar is cleared,
the error is raised, no request is issued and the counter is untouched. -/
theorem relogin_exceeded_step (tr : Transport) (st : ClientState) (s : Settings)
    (hs : st.settings = Option.some s) (hra : st.relogin_attempt > 1) :
    (relogin tr st).2.2 = Except.error PyErr.reloginAttemptExceeded ∧
    (relogin tr st).2.1 = [] ∧
    (relogin tr st).1.cookies = [] ∧
    (relogin tr st).1.relogin_attempt = st.relogin_attempt ∧
    (relogin tr st).1.settings.isSome = true := by
  unfold relogin
  rw [login_relogin_exceeded st.username st.password "" tr st s hs hra]
  refine ⟨rfl, rfl, rfl, ?_, ?_⟩ <;> simp

/-! ## Claim C1 -/

/-- C1: from a session whose relogin counter is 0 (and which holds a settings
object, without which `login` cannot even start), against a transport that
answers every request, the first and second `relogin()` calls reach the
credential-submission endpoint and succeed, the third raises
`ReloginAttemptExceeded` with the jar already cleared and no request issued,
and the counter is never reset: it stays at 2 and a fourth call raises
again. -/
theorem C1_relogin_cap (tr : Transport) (st0 : ClientState) (s : Settings)
    (hs : st0.settings = Option.some s) (h0 : st0.relogin_attempt = 0)
    (hok : ∀ r, tr.respond r = Except.ok true) :
    (relogin tr st0).2.2 = Except.ok true ∧
    "accounts/login/" ∈ (relogin tr st0).2.1.map Request.endpoint ∧
    (relogin tr st0).1.relogin_attempt = 1 ∧
    (relogin tr (relogin tr st0).1).2.2 = Except.ok true ∧
    "accounts/login/" ∈ (relogin tr (relogin tr st0).1).2.1.map Request.endpoint ∧
    (relogin tr (relogin tr st0).1).1.relogin_attempt = 2 ∧
    (relogin tr (relogin tr (relogin tr st0).1).1).2.2
      = Except.error PyErr.reloginAttemptExceeded ∧
    (relogin tr (relogin tr (relogin tr st0).1).1).2.1 = [] ∧
    (relogin tr (relogin tr (relogin tr st0).1).1).1.cookies = [] ∧
    (relogin tr (relogin tr (relogin tr st0).1).1).1.relogin_attempt = 2 ∧
    (relogin tr (relogin tr (relogin tr (relogin tr st0).1).1).1).2.2
      = Except.error PyErr.reloginAttemptExceeded := by
  obtain ⟨a1, a2, a3, a4⟩ := relogin_ok_step tr st0 s hs (by omega) hok
  obtain ⟨s1, hs1⟩ := Option.isSome_iff_exists.mp a4
  have hra1 : (relogin tr st0).1.relogin_attempt ≤ 1 := by omega
  obtain ⟨b1, b2, b3, b4⟩ := relogin_ok_step tr (relogin tr st0).1 s1 hs1 hra1 hok
  have hb3 : (relogin tr (relogin tr st0).1).1.relogin_attempt = 2 := by omega
  obtain ⟨s2, hs2⟩ := Option.isSome_iff_exists.mp b4
  obtain ⟨c1, c2, c3, c4, c5⟩ :=
    relogin_exceeded_step tr (relogin tr (relogin tr st0).1).1 s2 hs2 (by omega)
  have hc4 : (relogin tr (relogin tr (relogin tr st0).1).1).1.relogin_attempt = 2 := by
    omega
  obtain ⟨s3, hs3⟩ := Option.isSome_iff_exists.mp c5
  obtain ⟨d1, _, _, _, _⟩ :=
    relogin_exceeded_step tr (relogin tr (relogin tr (relogin tr st0).1).1).1 s3 hs3
      (by omega)
  exact ⟨a1, a2, by omega, b1, b2, hb3, c1, c2, c3, hc4, d1⟩

/-! ## Concrete fixtures for witnesses and counterexamples -/

/-- A settings document with no keys beyond the structure itself. -/
def emptySettingsDoc : Settings :=
  { cookies := Option.none, last_login := Option.none, device_settings := Option.none
    user_agent := Option.none, uuids := Option.none }

/-- A freshly constructed client that has already been given a (trivial)
settings object. -/
def baseState : ClientState :=
  { username := Option.none, password := Option.none, last_login := Option.none
    relogin_attempt := 0, device_settings := Option.none
    client_session_id := "", advertising_id := "", device_id := ""
    phone_id := "", uuid := "", user_agent := Option.none
    headers_user_agent := Option.none
    settings := Option.some emptySettingsDoc
    cookies := []
    uuidSupply := ["u01", "u02", "u03", "u04", "u05", "u06", "u07", "u08",
                   "u09", "u10", "u11", "u12"]
    deviceIdSupply := ["d01", "d02", "d03"]
    randSupply := [2, 1, 50, 0, 1] }

/-- A transport that answers every request with a truthy mapping. -/
def okTransport : Transport :=
  { respond := fun _ => Except.ok true
    lastJsonTwoFactorIdentifier := Option.some "tfi-1"
    encrypt := fun _ => "ENCRYPTED"
    waterfall := "waterfall-1", now := 1700000000, tz := "+0100" }

/-- Witness for C1 at a concrete fresh session and all-truthy transport. -/
theorem C1_relogin_cap_witness :
    baseState.settings = Option.some emptySettingsDoc ∧
    baseState.relogin_attempt = 0 ∧
    (relogin okTransport baseState).2.2 = Except.ok true ∧
    (relogin okTransport
        (relogin okTransport (relogin okTransport baseState).1).1).2.2
      = Except.error PyErr.reloginAttemptExceeded :=
  ⟨rfl, rfl,
    (C1_relogin_cap okTransport baseState emptySettingsDoc rfl rfl (fun _ => rfl)).1,
    (C1_relogin_cap okTransport baseState emptySettingsDoc rfl rfl
        (fun _ => rfl)).2.2.2.2.2.2.1⟩

/-! ## Claim C6 -/

theorem foldl_add_toNat (l : List Char) (a : Nat) :
    l.foldl (fun acc c => acc + c.toNat) a = a + (l.map Char.toNat).sum := by
  induction l generalizing a with
  | nil => simp
  | cons c t ih =>
    simp [List.foldl, ih]
    omega

/-- C6: `generate_jazoest` is a pure function of its input, equal to the
digit 2 followed by the decimal sum of the code points; on "12345" the sum of
the code points is 255, so the result is "2255". -/
theorem C6_generate_jazoest :
    (∀ s : String, generate_jazoest s = "2" ++ toString ((s.data.map Char.toNat).sum)) ∧
    generate_jazoest "12345" = "2255" := by
  constructor
  · intro s
    unfold generate_jazoest
    rw [foldl_add_toNat]
    simp
  · rfl

/-! ## Claim C7 -/

/-- A jar whose `ds_user_id` holds a non-numeric string. -/
def c7State : ClientState :=
  { baseState with cookies := [("ds_user_id", "31337x")] }

/-- C7 counterexample: on a non-numeric `ds_user_id` the accessor raises
`ValueError` (Python's `int("31337x")`) instead of returning a value, refuting
"the user_id accessor never raises ... including ... a non-numeric string". -/
theorem C7_counterexample :
    ClientState.user_id c7State = Except.error (PyErr.valueError "31337x") := by
  decide

/-- C7 amended: `user_id` never raises as long as any `ds_user_id` present is
empty or numeric — a missing cookie yields `None`, an empty one yields `None`
(it is falsy and skips the `int` call), and a numeric one yields its parsed
integer value. -/
theorem C7_user_id_amended :
    (∀ st : ClientState, cookieGet st.cookies "ds_user_id" = Option.none →
      st.user_id = Except.ok Option.none) ∧
    (∀ st : ClientState, cookieGet st.cookies "ds_user_id" = Option.some "" →
      st.user_id = Except.ok Option.none) ∧
    (∀ (st : ClientState) (v : String) (n : Int),
      cookieGet st.cookies "ds_user_id" = Option.some v → pyInt? v = Option.some n →
      st.user_id = Except.ok (Option.some n)) := by
  refine ⟨?_, ?_, ?_⟩
  · intro st h
    simp [ClientState.user_id, jarUserId, h]
  · intro st h
    simp [ClientState.user_id, jarUserId, h]
  · intro st v n h hv
    have hne : v ≠ "" := by
      rintro rfl
      have h0 : pyInt? "" = Option.none := by decide
      rw [h0] at hv
      cases hv
    simp [ClientState.user_id, jarUserId, h, hne, hv]

def c7bState : ClientState :=
  { baseState with cookies := [("ds_user_id", "")] }

def c7cState : ClientState :=
  { baseState with cookies := [("ds_user_id", "4242")] }

/-- Witness for the three amended C7 cases at concrete jars. -/
theorem C7_user_id_amended_witness :
    ClientState.user_id baseState = Except.ok Option.none ∧
    ClientState.user_id c7bState = Except.ok Option.none ∧
    ClientState.user_id c7cState = Except.ok (Option.some 4242) :=
  ⟨C7_user_id_amended.1 baseState rfl,
   C7_user_id_amended.2.1 c7bState rfl,
   C7_user_id_amended.2.2 c7cState "4242" 4242 rfl (by decide)⟩

/-! ## Claim C9 -/

/-- A jar whose `ds_user_id` holds a non-numeric string (C9 variant). -/
def c9State : ClientState :=
  { baseState with cookies := [("ds_user_id", "xyz")], uuid := "install-uuid-9" }

/-- C9 counterexample: with a non-numeric `ds_user_id` (so no numeric user id
is present in the jar), `user_id` raises `ValueError` rather than yielding
null, and `rank_token` propagates the same error. -/
theorem C9_counterexample :
    ClientState.user_id c9State = Except.error (PyErr.valueError "xyz") ∧
    ClientState.rank_token c9State = Except.error (PyErr.valueError "xyz") := by
  constructor <;> decide

/-- C9 amended: when `ds_user_id` is absent or empty, `user_id` yields null
and `rank_token` renders the literal "None" (Python's `str(None)`) in the
user-id slot — a non-numeric marker, never a fabricated numeric id. -/
theorem C9_no_fabricated_identity_amended (st : ClientState)
    (h : cookieGet st.cookies "ds_user_id" = Option.none ∨
         cookieGet st.cookies "ds_user_id" = Option.some "") :
    st.user_id = Except.ok Option.none ∧
    st.rank_token = Except.ok ("None_" ++ st.uuid) ∧
    pyInt? "None" = Option.none := by
  have hu : st.user_id = Except.ok Option.none := by
    rcases h with h | h <;> simp [ClientState.user_id, jarUserId, h]
  refine ⟨hu, ?_, by decide⟩
  unfold ClientState.rank_token
  rw [hu]
  rfl

def c9bState : ClientState :=
  { baseState with uuid := "install-uuid-9b" }

/-- Witness for amended C9 at a jar with no `ds_user_id` at all. -/
theorem C9_no_fabricated_identity_amended_witness :
    ClientState.user_id c9bState = Except.ok Option.none ∧
    ClientState.rank_token c9bState = Except.ok ("None_" ++ c9bState.uuid) ∧
    pyInt? "None" = Option.none :=
  C9_no_fabricated_identity_amended c9bState (Or.inl rfl)

/-! ## Claim C10 -/

/-- C10: `set_settings` only replaces the stored settings object — the cookie
jar, every identity field, the device descriptor, the user agent, the
last-login stamp and all cookie-derived accessors are unchanged — and the new
settings take effect on the live session only once `init` runs, which then
installs the stored cookies into the jar. -/
theorem C10_set_settings_frame (s : Settings) (c : Jar) (st : ClientState)
    (hc : s.cookies = Option.some c) :
    (set_settings s st).2 = true ∧
    (set_settings s st).1.settings = Option.some s ∧
    (set_settings s st).1.cookies = st.cookies ∧
    (set_settings s st).1.phone_id = st.phone_id ∧
    (set_settings s st).1.uuid = st.uuid ∧
    (set_settings s st).1.client_session_id = st.client_session_id ∧
    (set_settings s st).1.advertising_id = st.advertising_id ∧
    (set_settings s st).1.device_id = st.device_id ∧
    (set_settings s st).1.device_settings = st.device_settings ∧
    (set_settings s st).1.user_agent = st.user_agent ∧
    (set_settings s st).1.last_login = st.last_login ∧
    (set_settings s st).1.sessionid = st.sessionid ∧
    (set_settings s st).1.token = st.token ∧
    (set_settings s st).1.user_id = st.user_id ∧
    (init (set_settings s st).1).2 = Except.ok () ∧
    (init (set_settings s st).1).1.cookies = c := by
  refine ⟨rfl, rfl, rfl, rfl, rfl, rfl, rfl, rfl, rfl, rfl, rfl, rfl, rfl, rfl, ?_, ?_⟩
  · rw [init_eq _ s rfl]
  · rw [init_eq _ s rfl]
    simp [hc]

def c10Settings : Settings :=
  { emptySettingsDoc with cookies := Option.some [("sessionid", "sess-10")] }

/-- Witness for C10 at a concrete settings document carrying a cookies
mapping. -/
theorem C10_set_settings_frame_witness :
    (set_settings c10Settings baseState).1.cookies = baseState.cookies ∧
    ClientState.token (set_settings c10Settings baseState).1 = baseState.token ∧
    (init (set_settings c10Settings baseState).1).1.cookies
      = [("sessionid", "sess-10")] :=
  ⟨(C10_set_settings_frame c10Settings [("sessionid", "sess-10")] baseState rfl).2.2.1,
   (C10_set_settings_frame c10Settings [("sessionid", "sess-10")] baseState
       rfl).2.2.2.2.2.2.2.2.2.2.2.2.1,
   (C10_set_settings_frame c10Settings [("sessionid", "sess-10")] baseState
       rfl).2.2.2.2.2.2.2.2.2.2.2.2.2.2.2⟩

@[simp] theorem reqContactPointPrefill_endpoint (st : ClientState) :
    (reqContactPointPrefill st).endpoint = "accounts/contact_point_prefill/" := rfl

@[simp] theorem reqPrefillCandidates_endpoint (st : ClientState) :
    (reqPrefillCandidates st).endpoint = "accounts/get_prefill_candidates/" := rfl

@[simp] theorem reqSyncLauncher_endpoint (st : ClientState) :
    (reqSyncLauncher st).endpoint = "launcher/sync/" := rfl

@[simp] theorem reqSyncDeviceFeatures_endpoint (st : ClientState) :
    (reqSyncDeviceFeatures st).endpoint = "qe/sync/" := rfl

@[simp] theorem get_timeline_feed_endpoint (o : List PVal) (tr : Transport)
    (st : ClientState) : (get_timeline_feed o tr st).2.1.endpoint = "feed/timeline/" := rfl

theorem get_timeline_feed_resp (o : List PVal) (tr : Transport) (st : ClientState) :
    (get_timeline_feed o tr st).2.2 = tr.respond (get_timeline_feed o tr st).2.1 := rfl

@[simp] theorem get_reels_tray_feed_endpoint (reason : String) (tr : Transport)
    (st : ClientState) :
    (get_reels_tray_feed reason tr st).1.endpoint = "feed/reels_tray/" := rfl

theorem get_reels_tray_feed_resp (reason : String) (tr : Transport) (st : ClientState) :
    (get_reels_tray_feed reason tr st).2
      = tr.respond (get_reels_tray_feed reason tr st).1 := rfl

/-- Parsing a present, numeric `ds_user_id` cookie. -/
theorem jarUserId_parse (j : Jar) (v : String) (n : Int)
    (hj : cookieGet j "ds_user_id" = Option.some v) (hv : pyInt? v = Option.some n) :
    jarUserId j = Except.ok (Option.some n) := by
  have hne : v ≠ "" := by
    rintro rfl
    have h0 : pyInt? "" = Option.none := by decide
    rw [h0] at hv
    cases hv
  simp [jarUserId, hj, hne, hv]

/-! ## Claim C3 -/

/-- A session that is logged in (numeric `ds_user_id` in the live jar) but
whose stored settings carry a cookies mapping of their own. -/
def c3State : ClientState :=
  { baseState with
    cookies := [("ds_user_id", "123")]
    settings := Option.some { emptySettingsDoc with cookies := Option.some [] } }

/-- C3 counterexample: the jar holds the numeric `ds_user_id` "123" and
`relogin` is false, yet `login` performs the full network interaction (all
eight emulation requests) instead of returning immediately — `init` reinstalls
the stored settings cookies over the jar before the entry guard runs. -/
theorem C3_counterexample :
    cookieGet c3State.cookies "ds_user_id" = Option.some "123" ∧
    pyInt? "123" = Option.some 123 ∧
    (login (Option.some "user") (Option.some "pass") false "" okTransport
        c3State).2.1.map Request.endpoint =
      ["accounts/contact_point_prefill/", "accounts/get_prefill_candidates/",
       "accounts/contact_point_prefill/", "launcher/sync/", "qe/sync/",
       "accounts/login/", "feed/timeline/", "feed/reels_tray/"] := by
  refine ⟨rfl, by decide, ?_⟩
  exact (loginNetwork_ok (Option.some "user") (Option.some "pass") "" okTransport _
    (fun _ => rfl)).2.1

/-- C3 amended: the guard works as claimed provided the stored settings do not
themselves carry a cookies entry (otherwise `init` replaces the jar with it
first) and the numeric `ds_user_id` is nonzero (Python's truthiness test):
then `login` with `relogin=false` returns success immediately and issues no
request. -/
theorem C3_already_logged_in_amended (un pw vc : String) (tr : Transport)
    (st : ClientState) (s : Settings) (v : String) (n : Int)
    (hs : st.settings = Option.some s) (hc : s.cookies = Option.none)
    (hjar : cookieGet st.cookies "ds_user_id" = Option.some v)
    (hv : pyInt? v = Option.some n) (hn : n ≠ 0) :
    (login (Option.some un) (Option.some pw) false vc tr st).2.1 = [] ∧
    (login (Option.some un) (Option.some pw) false vc tr st).2.2 = Except.ok true := by
  rw [login_no_relogin _ _ _ _ _ s hs]
  have huid :
      (initModel { st with username := Option.some un, password := Option.some pw }
          s).user_id = Except.ok (Option.some n) := by
    have hcook :
        (initModel { st with username := Option.some un, password := Option.some pw }
            s).cookies = st.cookies := by
      simp [hc]
    unfold ClientState.user_id
    rw [hcook]
    exact jarUserId_parse _ v n hjar hv
  rw [loginGate_authed _ _ _ _ _ (Option.some n) huid (by simp [pyTruthyInt?, hn])]
  exact ⟨rfl, rfl⟩

/-- A logged-in session whose settings lack a cookies entry: the amended C3
guard applies. -/
def c3bState : ClientState :=
  { baseState with cookies := [("ds_user_id", "99"), ("sessionid", "live")] }

/-- Witness for amended C3 at a concrete authenticated session. -/
theorem C3_already_logged_in_amended_witness :
    (login (Option.some "user") (Option.some "pass") false "" okTransport
        c3bState).2.1 = [] ∧
    (login (Option.some "user") (Option.some "pass") false "" okTransport
        c3bState).2.2 = Except.ok true :=
  C3_already_logged_in_amended "user" "pass" "" okTransport c3bState emptySettingsDoc
    "99" 99 rfl rfl rfl (by decide) (by decide)

/-! ## Claim C4 -/

/-- A live session with cookies in the jar. -/
def c4State : ClientState :=
  { baseState with
    cookies := [("sessionid", "old-sess"), ("csrftoken", "old-tok"), ("ds_user_id", "7")] }

/-- The parsed settings file with its own cookies mapping. -/
def c4File : Settings :=
  { emptySettingsDoc with
    cookies := Option.some
      [("sessionid", "new-sess"), ("csrftoken", "new-tok"), ("ds_user_id", "8")] }

/-- C4 counterexample: immediately after `load_settings`, every accessor still
reads the old jar — `set_settings` only stores the document and does not
activate it, so the accessors do not reflect the cookies in the file. -/
theorem C4_counterexample :
    ClientState.sessionid (load_settings c4File c4State).1 = Option.some "old-sess" ∧
    ClientState.token (load_settings c4File c4State).1 = Option.some "old-tok" ∧
    ClientState.user_id (load_settings c4File c4State).1 = Except.ok (Option.some 7) ∧
    cookieGet [("sessionid", "new-sess"), ("csrftoken", "new-tok"), ("ds_user_id", "8")]
      "sessionid" = Option.some "new-sess" := by
  refine ⟨rfl, rfl, by decide, rfl⟩

/-- C4 amended: `load_settings` stores and returns the parsed document but
leaves the jar and every accessor unchanged; only a subsequent `init()`
installs the file's cookies, after which `token`, `sessionid`, `user_id` and
the user-id slot of `rank_token` exactly reflect the cookies mapping stored in
the file. -/
theorem C4_load_settings_amended (parsed : Settings) (c : Jar) (st : ClientState)
    (uid : Option Int) (hc : parsed.cookies = Option.some c)
    (hu : jarUserId c = Except.ok uid) :
    (load_settings parsed st).2 = parsed ∧
    (load_settings parsed st).1.settings = Option.some parsed ∧
    (load_settings parsed st).1.cookies = st.cookies ∧
    (load_settings parsed st).1.sessionid = st.sessionid ∧
    (load_settings parsed st).1.token = st.token ∧
    (load_settings parsed st).1.user_id = st.user_id ∧
    (load_settings parsed st).1.rank_token = st.rank_token ∧
    (init (load_settings parsed st).1).2 = Except.ok () ∧
    (init (load_settings parsed st).1).1.cookies = c ∧
    ClientState.sessionid (init (load_settings parsed st).1).1
      = cookieGet c "sessionid" ∧
    ClientState.token (init (load_settings parsed st).1).1
      = cookieGet c "csrftoken" ∧
    ClientState.user_id (init (load_settings parsed st).1).1 = jarUserId c ∧
    ClientState.rank_token (init (load_settings parsed st).1).1
      = Except.ok (pyStrOfOptInt uid ++ "_"
          ++ (init (load_settings parsed st).1).1.uuid) := by
  refine ⟨rfl, rfl, rfl, rfl, rfl, rfl, rfl, ?_, ?_, ?_, ?_, ?_, ?_⟩
  · rw [init_eq _ parsed rfl]
  · rw [init_eq _ parsed rfl]
    simp [hc]
  · rw [init_eq _ parsed rfl]
    simp [ClientState.sessionid, hc]
  · rw [init_eq _ parsed rfl]
    simp [ClientState.token, hc]
  · rw [init_eq _ parsed rfl]
    simp [ClientState.user_id, hc]
  · rw [init_eq _ parsed rfl]
    unfold ClientState.rank_token
    have : (initModel (load_settings parsed st).1 parsed).user_id = Except.ok uid := by
      unfold ClientState.user_id
      rw [initModel_cookies, hc]
      exact hu
    rw [this]

def c4bFile : Settings :=
  { emptySettingsDoc with
    cookies := Option.some [("sessionid", "file-sess"), ("csrftoken", "file-tok"),
                            ("ds_user_id", "321")]
    uuids := Option.some { phone_id := Option.some "ph-4", uuid := Option.some "in-4"
                           client_session_id := Option.some "cs-4"
                           advertising_id := Option.some "ad-4"
                           device_id := Option.some "dev-4" } }

/-- Witness for amended C4 at a concrete settings file. -/
theorem C4_load_settings_amended_witness :
    ClientState.sessionid (load_settings c4bFile baseState).1 = baseState.sessionid ∧
    ClientState.sessionid (init (load_settings c4bFile baseState).1).1
      = Option.some "file-sess" ∧
    ClientState.user_id (init (load_settings c4bFile baseState).1).1
      = jarUserId [("sessionid", "file-sess"), ("csrftoken", "file-tok"),
                   ("ds_user_id", "321")] :=
  ⟨(C4_load_settings_amended c4bFile _ baseState (Option.some 321) rfl
      (by decide)).2.2.2.1,
   (C4_load_settings_amended c4bFile _ baseState (Option.some 321) rfl
      (by decide)).2.2.2.2.2.2.2.2.2.1,
   (C4_load_settings_amended c4bFile _ baseState (Option.some 321) rfl
      (by decide)).2.2.2.2.2.2.2.2.2.2.2.1⟩

/-! ## Claim C5 -/

set_option maxHeartbeats 1600000 in
/-- The post-login flow succeeds and issues its two requests whenever the
transport answers both feed endpoints with truthy mappings. -/
theorem login_flow_ok2 (tr : Transport) (st : ClientState)
    (hT : ∀ r, r.endpoint = "feed/timeline/" → tr.respond r = Except.ok true)
    (hR : ∀ r, r.endpoint = "feed/reels_tray/" → tr.respond r = Except.ok true) :
    (login_flow tr st).2.2 = Except.ok true ∧
    (login_flow tr st).2.1.map Request.endpoint
      = ["feed/timeline/", "feed/reels_tray/"] := by
  simp only [login_flow, takeRand]
  rw [get_timeline_feed_resp, hT _ (get_timeline_feed_endpoint _ _ _)]
  rw [get_reels_tray_feed_resp, hR _ (get_reels_tray_feed_endpoint _ _ _)]
  exact ⟨rfl, rfl⟩

/-- The success tail of `login` reports success and appends the two post-login
requests whenever the transport answers both feed endpoints truthily. -/
theorem loginFinish_true_parts (tr : Transport) (st : ClientState) (log : List Request)
    (hT : ∀ r, r.endpoint = "feed/timeline/" → tr.respond r = Except.ok true)
    (hR : ∀ r, r.endpoint = "feed/reels_tray/" → tr.respond r = Except.ok true) :
    (loginFinish true tr st log).2.2 = Except.ok true ∧
    (loginFinish true tr st log).2.1.map Request.endpoint
      = log.map Request.endpoint ++ ["feed/timeline/", "feed/reels_tray/"] := by
  obtain ⟨h1, h2⟩ := login_flow_ok2 tr st hT hR
  simp only [loginFinish]
  rw [if_pos trivial]
  constructor
  · split
    next e he => rw [he] at h1; cases h1
    next b hb => rfl
  · split
    next e he => rw [he] at h1; cases h1
    next b hb => simp [h2]

/-- If the transport answers the login endpoint and both post-login feed
endpoints with truthy mappings, credential submission succeeds and appends
exactly those three requests to the log. -/
theorem loginSubmit_ok3 (un pw : Option String) (vc : String) (tr : Transport)
    (st : ClientState) (log0 : List Request)
    (hA : ∀ r, r.endpoint = "accounts/login/" → tr.respond r = Except.ok true)
    (hT : ∀ r, r.endpoint = "feed/timeline/" → tr.respond r = Except.ok true)
    (hR : ∀ r, r.endpoint = "feed/reels_tray/" → tr.respond r = Except.ok true) :
    (loginSubmit un pw vc tr st log0).2.2 = Except.ok true ∧
    (loginSubmit un pw vc tr st log0).2.1.map Request.endpoint
      = log0.map Request.endpoint
        ++ ["accounts/login/", "feed/timeline/", "feed/reels_tray/"] := by
  obtain ⟨hf1, hf2⟩ := loginFinish_true_parts tr st
    (log0 ++ [{ endpoint := "accounts/login/", data := loginPayload st un (tr.encrypt pw),
                login := true, with_signature := true }]) hT hR
  constructor
  · simp only [loginSubmit]
    rw [hA _ rfl]
    exact hf1
  · simp only [loginSubmit]
    rw [hA _ rfl]
    show List.map Request.endpoint (loginFinish true tr st _).2.1 = _
    rw [hf2, List.map_append]
    simp

/-- C5: against a transport `tr1` that rate-limits the first pre-login call
(and only it), login swallows the error, proceeds straight to credential
submission and succeeds; against a transport `tr2` that rate-limits the login
endpoint itself, the error surfaces unmodified. -/
theorem C5_rate_limit_asymmetry (un pw : String) (st : ClientState) (s : Settings)
    (tr1 tr2 : Transport)
    (hs : st.settings = Option.some s) (hc : s.cookies = Option.some [])
    (h1w : ∀ r, r.endpoint = "accounts/contact_point_prefill/" →
      tr1.respond r = Except.error PyErr.pleaseWaitFewMinutes)
    (h1o : ∀ r, r.endpoint ≠ "accounts/contact_point_prefill/" →
      tr1.respond r = Except.ok true)
    (h2w : ∀ r, r.endpoint = "accounts/login/" →
      tr2.respond r = Except.error PyErr.pleaseWaitFewMinutes)
    (h2o : ∀ r, r.endpoint ≠ "accounts/login/" → tr2.respond r = Except.ok true) :
    ((login (Option.some un) (Option.some pw) false "" tr1 st).2.2
        = Except.ok true ∧
     (login (Option.some un) (Option.some pw) false "" tr1 st).2.1.map
         Request.endpoint
       = ["accounts/contact_point_prefill/", "accounts/login/", "feed/timeline/",
          "feed/reels_tray/"]) ∧
    (login (Option.some un) (Option.some pw) false "" tr2 st).2.2
      = Except.error PyErr.pleaseWaitFewMinutes := by
  have huid :
      (initModel { st with username := Option.some un, password := Option.some pw }
          s).user_id = Except.ok Option.none := by
    unfold ClientState.user_id
    rw [initModel_cookies, hc]
    rfl
  constructor
  · rw [login_no_relogin _ _ _ _ _ s hs]
    rw [loginGate_not_authed _ _ _ _ _ Option.none huid rfl]
    have hplf :
        pre_login_flow tr1
            (initModel { st with username := Option.some un, password := Option.some pw } s)
          = ([reqContactPointPrefill
                (initModel { st with username := Option.some un, password := Option.some pw } s)],
             Except.error PyErr.pleaseWaitFewMinutes) := by
      simp only [pre_login_flow]
      rw [h1w _ rfl]
    simp only [loginNetwork]
    rw [hplf]
    obtain ⟨hres, hlog⟩ := loginSubmit_ok3 (Option.some un) (Option.some pw) "" tr1 _ _
      (fun r hr => h1o r (by rw [hr]; decide))
      (fun r hr => h1o r (by rw [hr]; decide))
      (fun r hr => h1o r (by rw [hr]; decide))
    refine ⟨hres, ?_⟩
    rw [hlog]
    rfl
  · rw [login_no_relogin _ _ _ _ _ s hs]
    rw [loginGate_not_authed _ _ _ _ _ Option.none huid rfl]
    set stI :=
      initModel { st with username := Option.some un, password := Option.some pw } s
      with hstI
    have hplf2 :
        pre_login_flow tr2 stI
          = ([reqContactPointPrefill stI, reqPrefillCandidates stI,
              reqContactPointPrefill stI, reqSyncLauncher stI,
              reqSyncDeviceFeatures stI], Except.ok ()) := by
      simp only [pre_login_flow]
      rw [h2o (reqContactPointPrefill stI)
            (by simp only [reqContactPointPrefill_endpoint]; decide),
        h2o (reqPrefillCandidates stI)
            (by simp only [reqPrefillCandidates_endpoint]; decide),
        h2o (reqSyncLauncher stI) (by simp only [reqSyncLauncher_endpoint]; decide),
        h2o (reqSyncDeviceFeatures stI)
            (by simp only [reqSyncDeviceFeatures_endpoint]; decide)]
    simp only [loginNetwork]
    rw [hplf2]
    simp only [loginSubmit]
    rw [h2w _ rfl]

def c5Tr1 : Transport :=
  { okTransport with respond := fun r =>
      (if r.endpoint = "accounts/contact_point_prefill/" then
        Except.error PyErr.pleaseWaitFewMinutes
      else Except.ok true) }

def c5Tr2 : Transport :=
  { okTransport with respond := fun r =>
      (if r.endpoint = "accounts/login/" then Except.error PyErr.pleaseWaitFewMinutes
      else Except.ok true) }

def c5State : ClientState :=
  { baseState with
    settings := Option.some { emptySettingsDoc with cookies := Option.some [] } }

/-- Witness for C5 at concrete transports that rate-limit exactly one
endpoint each. -/
theorem C5_rate_limit_asymmetry_witness :
    (login (Option.some "user") (Option.some "pass") false "" c5Tr1 c5State).2.2
      = Except.ok true ∧
    (login (Option.some "user") (Option.some "pass") false "" c5Tr2 c5State).2.2
      = Except.error PyErr.pleaseWaitFewMinutes :=
  ⟨(C5_rate_limit_asymmetry "user" "pass" c5State _ c5Tr1 c5Tr2 rfl rfl
      (fun r hr => by simp [c5Tr1, hr])
      (fun r hr => by simp [c5Tr1, hr])
      (fun r hr => by simp [c5Tr2, hr])
      (fun r hr => by simp [c5Tr2, hr])).1.1,
   (C5_rate_limit_asymmetry "user" "pass" c5State _ c5Tr1 c5Tr2 rfl rfl
      (fun r hr => by simp [c5Tr1, hr])
      (fun r hr => by simp [c5Tr1, hr])
      (fun r hr => by simp [c5Tr2, hr])
      (fun r hr => by simp [c5Tr2, hr])).2⟩

/-! ## Claim C2 -/

/-- Is a request addressed to the two-factor endpoint? -/
def isTwoFactorReq (r : Request) : Bool :=
  r.endpoint == "accounts/two_factor_login/"

theorem login_flow_no_twoFactor (tr : Transport) (st : ClientState)
    (hT : ∀ r, r.endpoint = "feed/timeline/" → tr.respond r = Except.ok true)
    (hR : ∀ r, r.endpoint = "feed/reels_tray/" → tr.respond r = Except.ok true) :
    (login_flow tr st).2.1.filter isTwoFactorReq = [] := by
  obtain ⟨_, h2⟩ := login_flow_ok2 tr st hT hR
  rw [List.filter_eq_nil_iff]
  intro r hr
  have hmem : r.endpoint ∈ ["feed/timeline/", "feed/reels_tray/"] := by
    rw [← h2]
    exact List.mem_map_of_mem _ hr
  simp only [List.mem_cons, List.not_mem_nil, or_false] at hmem
  simp only [isTwoFactorReq]
  rcases hmem with h | h <;> rw [h] <;> decide

theorem loginFinish_true_filter (tr : Transport) (st : ClientState) (log : List Request)
    (hT : ∀ r, r.endpoint = "feed/timeline/" → tr.respond r = Except.ok true)
    (hR : ∀ r, r.endpoint = "feed/reels_tray/" → tr.respond r = Except.ok true) :
    (loginFinish true tr st log).2.2 = Except.ok true ∧
    (loginFinish true tr st log).2.1.filter isTwoFactorReq
      = log.filter isTwoFactorReq := by
  obtain ⟨h1, _⟩ := login_flow_ok2 tr st hT hR
  have hnil := login_flow_no_twoFactor tr st hT hR
  simp only [loginFinish]
  rw [if_pos trivial]
  constructor
  · split
    next e he => rw [he] at h1; cases h1
    next b hb => rfl
  · split
    next e he => rw [he] at h1; cases h1
    next b hb => rw [List.filter_append, hnil, List.append_nil]

/-- The two-factor branch with a blank verification code: the fatal error with
the explanatory suffix is raised and the log gains only the login request. -/
theorem loginSubmit_twoFactor_blank (un pw : Option String) (vc : String)
    (tr : Transport) (st : ClientState) (log0 : List Request) (m : String)
    (hw : ∀ r, r.endpoint = "accounts/login/" →
      tr.respond r = Except.error (PyErr.twoFactorRequired m))
    (hvc : pyStrBlank vc = true) :
    (loginSubmit un pw vc tr st log0).2.2
      = Except.error (PyErr.twoFactorRequired
          (m ++ " (you did not provide verification_code for login method)")) ∧
    (loginSubmit un pw vc tr st log0).2.1
      = log0 ++ [{ endpoint := "accounts/login/"
                   data := loginPayload st un (tr.encrypt pw)
                   login := true, with_signature := true }] := by
  simp only [loginSubmit]
  rw [hw _ rfl, hvc]
  exact ⟨rfl, rfl⟩

/-- The two-factor branch with a non-blank verification code: exactly one
request to the two-factor endpoint is appended (carrying the full payload),
and its truthy result supersedes the failed submission. -/
theorem loginSubmit_twoFactor_retry (un pw : Option String) (vc : String)
    (tr : Transport) (st : ClientState) (log0 : List Request) (m : String)
    (hw : ∀ r, r.endpoint = "accounts/login/" →
      tr.respond r = Except.error (PyErr.twoFactorRequired m))
    (h2f : ∀ r, r.endpoint = "accounts/two_factor_login/" →
      tr.respond r = Except.ok true)
    (hT : ∀ r, r.endpoint = "feed/timeline/" → tr.respond r = Except.ok true)
    (hR : ∀ r, r.endpoint = "feed/reels_tray/" → tr.respond r = Except.ok true)
    (hvc : pyStrBlank vc = false) :
    (loginSubmit un pw vc tr st log0).2.2 = Except.ok true ∧
    (loginSubmit un pw vc tr st log0).2.1.filter isTwoFactorReq
      = log0.filter isTwoFactorReq
        ++ [{ endpoint := "accounts/two_factor_login/"
              data := twoFactorPayload st un vc tr
              login := true, with_signature := true }] := by
  obtain ⟨hf1, hf2⟩ := loginFinish_true_filter tr st
    (log0 ++ [{ endpoint := "accounts/login/"
                data := loginPayload st un (tr.encrypt pw)
                login := true, with_signature := true },
              { endpoint := "accounts/two_factor_login/"
                data := twoFactorPayload st un vc tr
                login := true, with_signature := true }]) hT hR
  simp only [loginSubmit]
  rw [hw _ rfl, hvc]
  rw [h2f _ rfl]
  refine ⟨hf1, ?_⟩
  show List.filter isTwoFactorReq (loginFinish true tr st _).2.1 = _
  rw [hf2, List.filter_append]
  simp [isTwoFactorReq]

/-- C2 (amended): when credential submission signals a two-factor challenge,
a blank (empty) verification code turns it into a fatal error whose message
carries the missing-code guidance and no request reaches the two-factor
endpoint; a verification code with non-whitespace content triggers exactly one
signed request to the two-factor endpoint carrying the code, phone id, CSRF
token, the transport-extracted two-factor identifier, username, device id, the
fresh waterfall id and the fixed verification method "3", and its truthy
result supersedes the failed submission. -/
theorem C2_two_factor_amended (un pw m vc p u ci ai di : String) (c : Jar)
    (st : ClientState) (s : Settings) (tr : Transport)
    (hs : st.settings = Option.some s) (hc : s.cookies = Option.some c)
    (hds : cookieGet c "ds_user_id" = Option.none)
    (huu : s.uuids = Option.some
      { phone_id := Option.some p, uuid := Option.some u
        client_session_id := Option.some ci, advertising_id := Option.some ai
        device_id := Option.some di })
    (hw : ∀ r, r.endpoint = "accounts/login/" →
      tr.respond r = Except.error (PyErr.twoFactorRequired m))
    (ho : ∀ r, r.endpoint ≠ "accounts/login/" → tr.respond r = Except.ok true)
    (hvc : pyStrBlank vc = false) :
    ((login (Option.some un) (Option.some pw) false "" tr st).2.2
       = Except.error (PyErr.twoFactorRequired
           (m ++ " (you did not provide verification_code for login method)")) ∧
     (login (Option.some un) (Option.some pw) false "" tr st).2.1.filter
         isTwoFactorReq = []) ∧
    ((login (Option.some un) (Option.some pw) false vc tr st).2.1.filter
         isTwoFactorReq
       = [{ endpoint := "accounts/two_factor_login/"
            data := [("verification_code", PVal.str vc),
                     ("phone_id", PVal.str p),
                     ("_csrftoken", PVal.ofOpt (cookieGet c "csrftoken")),
                     ("two_factor_identifier",
                      PVal.ofOpt tr.lastJsonTwoFactorIdentifier),
                     ("username", PVal.str un),
                     ("trust_this_device", PVal.str "0"),
                     ("guid", PVal.str u),
                     ("device_id", PVal.str di),
                     ("waterfall_id", PVal.str tr.waterfall),
                     ("verification_method", PVal.str "3")]
            login := true
            with_signature := true }] ∧
     (login (Option.some un) (Option.some pw) false vc tr st).2.2
       = Except.ok true) := by
  have huid :
      (initModel { st with username := Option.some un, password := Option.some pw }
          s).user_id = Except.ok Option.none := by
    unfold ClientState.user_id
    rw [initModel_cookies, hc]
    show jarUserId c = Except.ok Option.none
    unfold jarUserId
    rw [hds]
  have hT : ∀ r, r.endpoint = "feed/timeline/" → tr.respond r = Except.ok true :=
    fun r hr => ho r (by rw [hr]; decide)
  have hR : ∀ r, r.endpoint = "feed/reels_tray/" → tr.respond r = Except.ok true :=
    fun r hr => ho r (by rw [hr]; decide)
  have h2f : ∀ r, r.endpoint = "accounts/two_factor_login/" →
      tr.respond r = Except.ok true :=
    fun r hr => ho r (by rw [hr]; decide)
  have key : ∀ vcode : String,
      login (Option.some un) (Option.some pw) false vcode tr st
        = loginSubmit (Option.some un) (Option.some pw) vcode tr
            (initModel { st with username := Option.some un, password := Option.some pw } s)
            [reqContactPointPrefill
               (initModel { st with username := Option.some un, password := Option.some pw } s),
             reqPrefillCandidates
               (initModel { st with username := Option.some un, password := Option.some pw } s),
             reqContactPointPrefill
               (initModel { st with username := Option.some un, password := Option.some pw } s),
             reqSyncLauncher
               (initModel { st with username := Option.some un, password := Option.some pw } s),
             reqSyncDeviceFeatures
               (initModel { st with username := Option.some un, password := Option.some pw } s)] := by
    intro vcode
    rw [login_no_relogin _ _ _ _ _ s hs]
    rw [loginGate_not_authed _ _ _ _ _ Option.none huid rfl]
    set stI :=
      initModel { st with username := Option.some un, password := Option.some pw } s
      with hstI
    have hplf :
        pre_login_flow tr stI
          = ([reqContactPointPrefill stI, reqPrefillCandidates stI,
              reqContactPointPrefill stI, reqSyncLauncher stI,
              reqSyncDeviceFeatures stI], Except.ok ()) := by
      simp only [pre_login_flow]
      rw [ho (reqContactPointPrefill stI)
            (by simp only [reqContactPointPrefill_endpoint]; decide),
        ho (reqPrefillCandidates stI)
            (by simp only [reqPrefillCandidates_endpoint]; decide),
        ho (reqSyncLauncher stI) (by simp only [reqSyncLauncher_endpoint]; decide),
        ho (reqSyncDeviceFeatures stI)
            (by simp only [reqSyncDeviceFeatures_endpoint]; decide)]
    simp only [loginNetwork]
    rw [hplf]
  have hpre :
      List.filter isTwoFactorReq
          [reqContactPointPrefill
             (initModel { st with username := Option.some un, password := Option.some pw } s),
           reqPrefillCandidates
             (initModel { st with username := Option.some un, password := Option.some pw } s),
           reqContactPointPrefill
             (initModel { st with username := Option.some un, password := Option.some pw } s),
           reqSyncLauncher
             (initModel { st with username := Option.some un, password := Option.some pw } s),
           reqSyncDeviceFeatures
             (initModel { st with username := Option.some un, password := Option.some pw } s)]
        = [] := by
    simp [isTwoFactorReq]
  obtain ⟨hp, hu2, hci2, hai2, hdi2⟩ :=
    initModel_uuid_fields { st with username := Option.some un, password := Option.some pw }
      s _ p u ci ai di huu rfl rfl rfl rfl rfl
  have htok :
      ClientState.token
          (initModel { st with username := Option.some un, password := Option.some pw } s)
        = cookieGet c "csrftoken" := by
    unfold ClientState.token
    rw [initModel_cookies, hc]
    rfl
  refine ⟨?_, ?_⟩
  · rw [key ""]
    obtain ⟨hb1, hb2⟩ :=
      loginSubmit_twoFactor_blank (Option.some un) (Option.some pw) "" tr _ _ m hw
        (by decide)
    refine ⟨hb1, ?_⟩
    rw [hb2, List.filter_append, hpre]
    simp [isTwoFactorReq]
  · rw [key vc]
    obtain ⟨hr1, hr2⟩ :=
      loginSubmit_twoFactor_retry (Option.some un) (Option.some pw) vc tr _ _ m hw
        h2f hT hR hvc
    refine ⟨?_, hr1⟩
    rw [hr2, hpre]
    simp only [List.nil_append, twoFactorPayload]
    rw [hp, hu2, hdi2, htok]
    rfl

def c2Tr : Transport :=
  { okTransport with respond := fun r =>
      (if r.endpoint = "accounts/login/" then
        Except.error (PyErr.twoFactorRequired "two_factor_required")
      else Except.ok true) }

def c2State : ClientState :=
  { baseState with
    settings := Option.some { emptySettingsDoc with cookies := Option.some [] } }

/-- C2 counterexample: a whitespace-only verification code " " is a non-empty
string, yet when the remote signals the two-factor challenge, `login` raises
the fatal error and issues no request to the two-factor endpoint — the source
tests `verification_code.strip()`, not emptiness. -/
theorem C2_counterexample :
    (" " : String) ≠ "" ∧
    (login (Option.some "user") (Option.some "pass") false " " c2Tr c2State).2.2
      = Except.error (PyErr.twoFactorRequired
          "two_factor_required (you did not provide verification_code for login method)") ∧
    (login (Option.some "user") (Option.some "pass") false " " c2Tr
        c2State).2.1.filter isTwoFactorReq = [] := by
  refine ⟨by decide, by decide, by decide⟩

def c2wState : ClientState :=
  { baseState with
    settings := Option.some
      { emptySettingsDoc with
        cookies := Option.some []
        uuids := Option.some
          { phone_id := Option.some "ph-2", uuid := Option.some "in-2"
            client_session_id := Option.some "cs-2"
            advertising_id := Option.some "ad-2"
            device_id := Option.some "dev-2" } } }

/-- Witness for amended C2 at a concrete session and two-factor-signalling
transport. -/
theorem C2_two_factor_amended_witness :
    pyStrBlank "123456" = false ∧
    (login (Option.some "user") (Option.some "pass") false "" c2Tr c2wState).2.2
      = Except.error (PyErr.twoFactorRequired
          "two_factor_required (you did not provide verification_code for login method)") ∧
    ((login (Option.some "user") (Option.some "pass") false "123456" c2Tr
        c2wState).2.1.filter isTwoFactorReq).length = 1 ∧
    (login (Option.some "user") (Option.some "pass") false "123456" c2Tr
        c2wState).2.2 = Except.ok true :=
  ⟨by decide,
   (C2_two_factor_amended "user" "pass" "two_factor_required" "123456"
      "ph-2" "in-2" "cs-2" "ad-2" "dev-2" [] c2wState _ c2Tr rfl rfl rfl rfl
      (fun r hr => by simp [c2Tr, okTransport, hr])
      (fun r hr => by simp [c2Tr, okTransport, hr]) (by decide)).1.1,
   by rw [(C2_two_factor_amended "user" "pass" "two_factor_required" "123456"
      "ph-2" "in-2" "cs-2" "ad-2" "dev-2" [] c2wState _ c2Tr rfl rfl rfl rfl
      (fun r hr => by simp [c2Tr, okTransport, hr])
      (fun r hr => by simp [c2Tr, okTransport, hr]) (by decide)).2.1]; rfl,
   (C2_two_factor_amended "user" "pass" "two_factor_required" "123456"
      "ph-2" "in-2" "cs-2" "ad-2" "dev-2" [] c2wState _ c2Tr rfl rfl rfl rfl
      (fun r hr => by simp [c2Tr, okTransport, hr])
      (fun r hr => by simp [c2Tr, okTransport, hr]) (by decide)).2.2⟩

/-! ## Claim C8 -/

/-- C8: `set_device` with the same descriptor twice regenerates every
identifier unconditionally — the randomness is injected as streams, and as
long as the second batch of drawn values differs from the first, `device_id`
and all four transient identifiers change, independently of the
descriptor. -/
theorem C8_set_device_regenerates (D : Device) (st : ClientState) (s : Settings)
    (a b c d e f g h x y : String) (ru rd : List String)
    (hs : st.settings = Option.some s)
    (hu : st.uuidSupply = [a, b, c, d, e, f, g, h] ++ ru)
    (hd : st.deviceIdSupply = [x, y] ++ rd)
    (h1 : a ≠ e) (h2 : b ≠ f) (h3 : c ≠ g) (h4 : d ≠ h) (h5 : x ≠ y) :
    (set_device (Option.some D) st).2 = Except.ok () ∧
    (set_device (Option.some D) (set_device (Option.some D) st).1).2 = Except.ok () ∧
    (set_device (Option.some D) st).1.phone_id = a ∧
    (set_device (Option.some D) st).1.uuid = b ∧
    (set_device (Option.some D) st).1.client_session_id = c ∧
    (set_device (Option.some D) st).1.advertising_id = d ∧
    (set_device (Option.some D) st).1.device_id = x ∧
    (set_device (Option.some D) (set_device (Option.some D) st).1).1.phone_id = e ∧
    (set_device (Option.some D) (set_device (Option.some D) st).1).1.uuid = f ∧
    (set_device (Option.some D) (set_device (Option.some D) st).1).1.client_session_id = g ∧
    (set_device (Option.some D) (set_device (Option.some D) st).1).1.advertising_id = h ∧
    (set_device (Option.some D) (set_device (Option.some D) st).1).1.device_id = y ∧
    (set_device (Option.some D) (set_device (Option.some D) st).1).1.phone_id
      ≠ (set_device (Option.some D) st).1.phone_id ∧
    (set_device (Option.some D) (set_device (Option.some D) st).1).1.uuid
      ≠ (set_device (Option.some D) st).1.uuid ∧
    (set_device (Option.some D) (set_device (Option.some D) st).1).1.client_session_id
      ≠ (set_device (Option.some D) st).1.client_session_id ∧
    (set_device (Option.some D) (set_device (Option.some D) st).1).1.advertising_id
      ≠ (set_device (Option.some D) st).1.advertising_id ∧
    (set_device (Option.some D) (set_device (Option.some D) st).1).1.device_id
      ≠ (set_device (Option.some D) st).1.device_id := by
  simp [set_device, hs, hu, hd, emptyUuids, h1.symm, h2.symm, h3.symm, h4.symm, h5.symm]

def c8Device : Device :=
  { defaultDevice with manufacturer := "OnePlus", model := "kebab" }

def c8State : ClientState :=
  { baseState with uuidSupply := ["p1", "q1", "r1", "s1", "p2", "q2", "r2", "s2"]
                   deviceIdSupply := ["android-aaaa", "android-bbbb"] }

/-- Witness for C8: two `set_device` calls with the identical descriptor on a
concrete state with distinct pre-drawn fresh values. -/
theorem C8_set_device_regenerates_witness :
    (set_device (Option.some c8Device) c8State).1.device_id = "android-aaaa" ∧
    (set_device (Option.some c8Device)
        (set_device (Option.some c8Device) c8State).1).1.device_id = "android-bbbb" ∧
    (set_device (Option.some c8Device)
          (set_device (Option.some c8Device) c8State).1).1.phone_id
      ≠ (set_device (Option.some c8Device) c8State).1.phone_id :=
  ⟨(C8_set_device_regenerates c8Device c8State emptySettingsDoc
      "p1" "q1" "r1" "s1" "p2" "q2" "r2" "s2" "android-aaaa" "android-bbbb" [] []
      rfl rfl rfl (by decide) (by decide) (by decide) (by decide)
      (by decide)).2.2.2.2.2.2.1,
   (C8_set_device_regenerates c8Device c8State emptySettingsDoc
      "p1" "q1" "r1" "s1" "p2" "q2" "r2" "s2" "android-aaaa" "android-bbbb" [] []
      rfl rfl rfl (by decide) (by decide) (by decide) (by decide)
      (by decide)).2.2.2.2.2.2.2.2.2.2.2.1,
   (C8_set_device_regenerates c8Device c8State emptySettingsDoc
      "p1" "q1" "r1" "s1" "p2" "q2" "r2" "s2" "android-aaaa" "android-bbbb" [] []
      rfl rfl rfl (by decide) (by decide) (by decide) (by decide)
      (by decide)).2.2.2.2.2.2.2.2.2.2.2.2.1⟩

end Instagrapi
